import Mathlib

/-!
Verification development for the ANISE core: the `Metadata` header record
(`src/structure/metadata.rs`) and the geodetic frame capability hierarchy
(`src/frames/geodetic_frame.rs`).

Conventions of the embedding:
* byte streams are `List Nat` whose elements denote bytes;
* the self-describing (tag + length + value) binary fields of the header
  are modelled by `tlv` / `decTLV`, with the DER short/long definite
  length form in `encLen` / `decLen`;
* `f64` physical constants are modelled as exact rationals (`Rat`): the
  core only copies them between records, it performs no float arithmetic;
* fallible operations return `Option` / `Except AniseError`.

External collaborators (the `Semver` and `Epoch` wire payloads, the
`Ellipsoid` accessors, the constants store behind `Context`, and the
`ANISE_VERSION` constant) are not part of the two source files; their
definitions below are modelled from the spec and say so in their doc
comments.  Everything else is translated directly from the Rust source.
-/

namespace Anise

/-! ### Base-256 big-endian digits (used by length fields and the epoch payload) -/

/-- Value of a big-endian base-256 digit list. -/
def fromBase256 (bs : List Nat) : Nat :=
  bs.foldl (fun acc b => acc * 256 + b) 0

/-- Fuel-indexed big-endian base-256 digits of `n` (minimal, most significant first). -/
def toBase256Aux : Nat → Nat → List Nat
  | 0, _ => []
  | fuel + 1, n => if n < 256 then [n] else toBase256Aux fuel (n / 256) ++ [n % 256]

/-- Minimal big-endian base-256 digits of `n` (`[0]` for `n = 0`). -/
def toBase256 (n : Nat) : List Nat :=
  toBase256Aux (n + 1) n

/-! ### DER definite lengths and tag + length + value fields -/

/-- DER definite-form length: one byte below 128, otherwise `0x80 + k`
followed by the `k` base-256 digits of the length. -/
def encLen (n : Nat) : List Nat :=
  if n < 128 then [n] else (128 + (toBase256 n).length) :: toBase256 n

/-- Read a DER definite-form length, returning it with the unread rest. -/
def decLen : List Nat → Option (Nat × List Nat)
  | [] => none
  | b :: rest =>
    if b < 128 then some (b, rest)
    else
      let k := b - 128
      if k = 0 then none
      else if rest.length < k then none
      else some (fromBase256 (rest.take k), rest.drop k)

/-- A self-describing field: tag byte, encoded length, payload. -/
def tlv (tag : Nat) (payload : List Nat) : List Nat :=
  tag :: encLen payload.length ++ payload

/-- Read one field of the expected `tag`: a wrong tag, a malformed length or a
length overrunning the remaining buffer is a hard failure. -/
def decTLV (tag : Nat) : List Nat → Option (List Nat × List Nat)
  | [] => none
  | t :: rest =>
    if t = tag then
      match decLen rest with
      | some (n, rest2) =>
        if rest2.length < n then none else some (rest2.take n, rest2.drop n)
      | none => none
    else none

/-! ### Semver and Epoch (external field types of the header) -/

/-- Three-component semantic version (`structure/semver.rs`, outside src/):
each component an unsigned byte-sized integer. -/
structure Semver where
  major : Nat
  minor : Nat
  patch : Nat
deriving DecidableEq, Repr

/-- Tag byte of the version field (an octet-string payload of the three components). -/
def SEMVER_TAG : Nat := 4

/-- Tag byte of the timestamp field. -/
def EPOCH_TAG : Nat := 48

/-- Tag byte of a UTF-8 string field. -/
def UTF8_TAG : Nat := 12

/-- Modelled from the spec: the version field is a self-describing field whose
payload is the three unsigned components in order (the `Semver` codec lives in
`structure/semver.rs`, which is not under src/). -/
def Semver.encode (v : Semver) : List Nat :=
  tlv SEMVER_TAG [v.major, v.minor, v.patch]

/-- Modelled from the spec: reading the version field requires the version tag
and a payload of exactly three components. -/
def Semver.decode (buf : List Nat) : Option (Semver × List Nat) :=
  match decTLV SEMVER_TAG buf with
  | some ([a, b, c], rest) => some (⟨a, b, c⟩, rest)
  | some _ => none
  | none => none

/-- Modelled from the spec: opaque ordered timestamp with second-or-finer
resolution (the `hifitime::Epoch` collaborator); modelled as a nanosecond
count. -/
structure Epoch where
  nanos : Nat
deriving DecidableEq, Repr

/-- Modelled from the spec: the timestamp field is a self-describing field with
an injective payload (here the base-256 digits of the nanosecond count). -/
def Epoch.encode (e : Epoch) : List Nat :=
  tlv EPOCH_TAG (toBase256 e.nanos)

/-- Modelled from the spec: reading the timestamp field requires the timestamp
tag and recovers the count from the payload digits. -/
def Epoch.decode (buf : List Nat) : Option (Epoch × List Nat) :=
  match decTLV EPOCH_TAG buf with
  | some (p, rest) => some (⟨fromBase256 p⟩, rest)
  | none => none

/-- A UTF-8 string field (`der::asn1::Utf8StringRef`): the string's bytes
behind the UTF-8 string tag, length-prefixed; the empty string is a valid
zero-length payload. -/
def encodeUtf8 (s : List Nat) : List Nat :=
  tlv UTF8_TAG s

/-- Read one UTF-8 string field. -/
def decodeUtf8 (buf : List Nat) : Option (List Nat × List Nat) :=
  decTLV UTF8_TAG buf

/-! ### Metadata (`src/structure/metadata.rs`) -/

/-- The versioned file header: ANISE version, creation time, originator and
resource URI (strings held as their UTF-8 bytes). -/
structure Metadata where
  anise_version : Semver
  creation_date : Epoch
  originator : List Nat
  metadata_uri : List Nat
deriving DecidableEq, Repr

/-- Modelled from the spec: the library's version constant (defined in the
structure module root, outside src/); its concrete value is immaterial to the
claims. -/
def ANISE_VERSION : Semver := ⟨0, 0, 1⟩

/-- `impl Default for Metadata`: the ANISE version constant, the injected
current time, and empty strings for originator and URI. -/
def Metadata.default (now : Epoch) : Metadata :=
  { anise_version := ANISE_VERSION
    creation_date := now
    originator := []
    metadata_uri := [] }

/-- `Metadata::encode`: the four fields in fixed order - version, creation
timestamp, originator string, resource URI string. -/
def Metadata.encode (m : Metadata) : List Nat :=
  m.anise_version.encode ++ m.creation_date.encode ++
    encodeUtf8 m.originator ++ encodeUtf8 m.metadata_uri

/-- `Metadata::decode`: consume the four fields strictly in encoding order;
any field failure fails the whole record. -/
def Metadata.decode (buf : List Nat) : Option (Metadata × List Nat) :=
  match Semver.decode buf with
  | none => none
  | some (v, r1) =>
    match Epoch.decode r1 with
    | none => none
    | some (e, r2) =>
      match decodeUtf8 r2 with
      | none => none
      | some (orig, r3) =>
        match decodeUtf8 r3 with
        | none => none
        | some (uri, r4) => some (⟨v, e, orig, uri⟩, r4)

/-- The typed error kinds of the core (spec section 7). -/
inductive AniseError where
  | NotFound (name : String)
  | ParameterNotSpecified (name : String) (missing : String)
  | DecodeError
  | VersionIncompatible
deriving DecidableEq, Repr

/-- Modelled from the spec: reading a file header decodes the `Metadata` and
gates on it - a decoded major version above what the reader supports is
`VersionIncompatible`, a malformed record is `DecodeError` (the gating caller
is not under src/; `Metadata::decode` itself performs no version check). -/
def readHeader (supportedMajor : Nat) (buf : List Nat) : Except AniseError Metadata :=
  match Metadata.decode buf with
  | none => .error .DecodeError
  | some (m, _) =>
    if supportedMajor < m.anise_version.major then .error .VersionIncompatible
    else .ok m

/-! ### Display rendering of Metadata -/

/-- ASCII bytes of a literal. -/
def strBytes (s : String) : List Nat :=
  s.toList.map Char.toNat

/-- Modelled from the spec: the `Semver` display form `major.minor.patch`. -/
def Semver.render (v : Semver) : List Nat :=
  strBytes (toString v.major ++ "." ++ toString v.minor ++ "." ++ toString v.patch)

/-- Modelled from the spec: the timestamp's display form (opaque; any
rendering of the count works for the claims). -/
def Epoch.render (e : Epoch) : List Nat :=
  strBytes (toString e.nanos)

/-- `impl Display for Metadata`: the four `writeln!` lines, with the empty
originator or URI rendered as the fixed placeholder. -/
def Metadata.displayLines (m : Metadata) : List (List Nat) :=
  [ strBytes "ANISE version " ++ m.anise_version.render,
    strBytes "Originator: " ++
      (if m.originator = [] then strBytes "(not set)" else m.originator),
    strBytes "Creation date: " ++ m.creation_date.render,
    strBytes "Metadata URI: " ++
      (if m.metadata_uri = [] then strBytes "(not set)" else m.metadata_uri) ]

/-! ### Frames (`src/frames/geodetic_frame.rs` and its collaborators) -/

/-- Opaque integer identity hash of a body or frame; exact equality only. -/
abbrev NaifId := Nat

/-- Bare frame identity: the pair of identity hashes. -/
structure Frame where
  ephemeris_hash : NaifId
  orientation_hash : NaifId
deriving DecidableEq, Repr

/-- Modelled from the spec: the external `Ellipsoid` shape collaborator with
its three radii (`shapes/ellipsoid.rs` is not under src/). -/
structure Ellipsoid where
  semi_major_equatorial_radius_km : Rat
  semi_minor_equatorial_radius_km : Rat
  polar_radius_km : Rat
deriving DecidableEq, Repr

/-- Modelled from the spec: the mean equatorial radius accessor of the
external shape type. -/
def Ellipsoid.mean_equatorial_radius_km (e : Ellipsoid) : Rat :=
  (e.semi_major_equatorial_radius_km + e.semi_minor_equatorial_radius_km) / 2

/-- Modelled from the spec: the flattening accessor of the external shape
type. -/
def Ellipsoid.flattening (e : Ellipsoid) : Rat :=
  (e.semi_major_equatorial_radius_km - e.polar_radius_km) / e.semi_major_equatorial_radius_km

/-- Modelled from the spec: a celestial frame embeds the bare identity and
adds the gravitational parameter (`frames/celestial_frame.rs` is not under
src/). -/
structure CelestialFrame where
  frame : Frame
  mu_km3_s2 : Rat
deriving DecidableEq, Repr

/-- Modelled from the spec: the celestial frame delegates its ephemeris hash
to the embedded identity. -/
def CelestialFrame.ephemeris_hash (c : CelestialFrame) : NaifId :=
  c.frame.ephemeris_hash

/-- Modelled from the spec: the celestial frame delegates its orientation hash
to the embedded identity. -/
def CelestialFrame.orientation_hash (c : CelestialFrame) : NaifId :=
  c.frame.orientation_hash

/-- A geodetic frame: a celestial frame whose shape and rotation rate are
defined. -/
structure GeodeticFrame where
  celestial_frame : CelestialFrame
  shape : Ellipsoid
  angular_velocity_deg : Rat
deriving DecidableEq, Repr

/-- `impl FrameTrait for GeodeticFrame`: ephemeris hash of the embedded
celestial frame. -/
def GeodeticFrame.ephemeris_hash (g : GeodeticFrame) : NaifId :=
  g.celestial_frame.ephemeris_hash

/-- `impl FrameTrait for GeodeticFrame`: orientation hash of the embedded
celestial frame. -/
def GeodeticFrame.orientation_hash (g : GeodeticFrame) : NaifId :=
  g.celestial_frame.orientation_hash

/-- `impl CelestialFrameTrait for GeodeticFrame`: gravitational parameter of
the embedded celestial frame. -/
def GeodeticFrame.mu_km3_s2 (g : GeodeticFrame) : Rat :=
  g.celestial_frame.mu_km3_s2

/-- `impl GeodeticFrameTrait`: mean equatorial radius of the shape. -/
def GeodeticFrame.mean_equatorial_radius_km (g : GeodeticFrame) : Rat :=
  g.shape.mean_equatorial_radius_km

/-- `impl GeodeticFrameTrait`: semi-major radius field of the shape. -/
def GeodeticFrame.semi_major_radius_km (g : GeodeticFrame) : Rat :=
  g.shape.semi_major_equatorial_radius_km

/-- `impl GeodeticFrameTrait`: flattening coefficient of the shape. -/
def GeodeticFrame.flattening (g : GeodeticFrame) : Rat :=
  g.shape.flattening

/-- `impl GeodeticFrameTrait`: the frame's own angular velocity field. -/
def GeodeticFrame.angular_velocity_deg_s (g : GeodeticFrame) : Rat :=
  g.angular_velocity_deg

/-- `impl Into<Frame> for GeodeticFrame`: the lossy narrowing conversion,
keeping only the embedded bare identity. -/
def GeodeticFrame.into_frame (g : GeodeticFrame) : Frame :=
  g.celestial_frame.frame

/-! ### Context resolution -/

/-- Modelled from the spec: a planetary constants record - gravitational
parameter plus an optional shape. -/
structure PlanetaryConstants where
  mu_km3_s2 : Rat
  shape : Option Ellipsoid
deriving DecidableEq, Repr

/-- Modelled from the spec: the externally-owned constants store behind
`Context`, keyed by name. -/
structure Context where
  planetary_constants : List (String × PlanetaryConstants)
deriving DecidableEq, Repr

/-- Modelled from the spec: exact, case-sensitive lookup of a constants
record by name in the store. -/
def Context.planetary_constants_from_name (ctx : Context) (name : String) :
    Option PlanetaryConstants :=
  ctx.planetary_constants.lookup name

/-- Modelled from the spec: the stable name-to-hash scheme assigning each
accepted name a `NaifId` (the hashing helper is not under src/; any fixed
injective-enough scheme serves the claims). -/
def hashName (s : String) : Nat :=
  s.toList.foldl (fun acc c => (acc * 31 + c.toNat) % 2 ^ 32) 5381

/-- Modelled from the spec: frame identity derived from the two names via the
name-to-hash scheme. -/
def Frame.from_ephemeris_orientation_names (ephemeris_name orientation_name : String) : Frame :=
  ⟨hashName ephemeris_name, hashName orientation_name⟩

/-- Modelled from the spec: `Context::geodetic_frame_from` (its Rust body is
an unimplemented stub): look up the constants record by `constants_name`
(NotFound naming the missing name on failure); require its shape
(ParameterNotSpecified naming the constants name and the missing sub-field);
on success build the geodetic frame from the two names and the record, with
the rotation rate's unspecified source left at zero. -/
def Context.geodetic_frame_from (ctx : Context)
    (ephemeris_name orientation_name constants_name : String) :
    Except AniseError GeodeticFrame :=
  match ctx.planetary_constants_from_name constants_name with
  | none => .error (.NotFound constants_name)
  | some constants =>
    match constants.shape with
    | none => .error (.ParameterNotSpecified constants_name "shape")
    | some shape =>
      .ok { celestial_frame :=
              { frame := Frame.from_ephemeris_orientation_names ephemeris_name orientation_name
                mu_km3_s2 := constants.mu_km3_s2 }
            shape := shape
            angular_velocity_deg := 0 }

/-- `Context::geodetic_frame`: the two-argument resolution, delegating to the
three-argument form with the constants name equal to the ephemeris name. -/
def Context.geodetic_frame (ctx : Context) (ephemeris_name orientation_name : String) :
    Except AniseError GeodeticFrame :=
  ctx.geodetic_frame_from ephemeris_name orientation_name ephemeris_name

/-! ### Round-trip lemmas for the byte-level codec -/

theorem fromBase256_concat (xs : List Nat) (b : Nat) :
    fromBase256 (xs ++ [b]) = fromBase256 xs * 256 + b := by
  simp [fromBase256]

theorem fromBase256_toBase256Aux (fuel : Nat) :
    ∀ n, n < fuel → fromBase256 (toBase256Aux fuel n) = n := by
  induction fuel with
  | zero => intro n h; omega
  | succ fuel ih =>
    intro n h
    by_cases h256 : n < 256
    · simp [toBase256Aux, h256, fromBase256]
    · have hdiv : n / 256 < n := Nat.div_lt_self (by omega) (by omega)
      simp only [toBase256Aux, if_neg h256, fromBase256_concat]
      rw [ih (n / 256) (by omega)]
      omega

theorem fromBase256_toBase256 (n : Nat) : fromBase256 (toBase256 n) = n :=
  fromBase256_toBase256Aux (n + 1) n (Nat.lt_succ_self n)

theorem toBase256_ne_nil (n : Nat) : toBase256 n ≠ [] := by
  unfold toBase256
  by_cases h : n < 256 <;> simp [toBase256Aux, h]

theorem decLen_encLen (n : Nat) (rest : List Nat) :
    decLen (encLen n ++ rest) = some (n, rest) := by
  by_cases h : n < 128
  · simp [encLen, h, decLen]
  · have hne : (toBase256 n).length ≠ 0 := by simpa using toBase256_ne_nil n
    simp only [encLen, if_neg h, List.cons_append, decLen, Nat.add_sub_cancel_left]
    rw [if_neg (by omega), if_neg (by omega),
      if_neg (by simp only [List.length_append]; omega)]
    simp [List.take_left, List.drop_left, fromBase256_toBase256]

theorem decTLV_tlv (tag : Nat) (p rest : List Nat) :
    decTLV tag (tlv tag p ++ rest) = some (p, rest) := by
  simp only [tlv, List.cons_append, List.append_assoc, decTLV, if_pos, decLen_encLen]
  rw [if_neg (by simp only [List.length_append]; omega)]
  simp [List.take_left, List.drop_left]

theorem decTLV_wrong_tag (tag t : Nat) (h : t ≠ tag) (p rest : List Nat) :
    decTLV tag (tlv t p ++ rest) = none := by
  simp [tlv, decTLV, h]

theorem semver_decode_encode (v : Semver) (rest : List Nat) :
    Semver.decode (v.encode ++ rest) = some (v, rest) := by
  simp [Semver.decode, Semver.encode, decTLV_tlv]

theorem epoch_decode_encode (e : Epoch) (rest : List Nat) :
    Epoch.decode (e.encode ++ rest) = some (e, rest) := by
  simp [Epoch.decode, Epoch.encode, decTLV_tlv, fromBase256_toBase256]

theorem decodeUtf8_encodeUtf8 (s rest : List Nat) :
    decodeUtf8 (encodeUtf8 s ++ rest) = some (s, rest) := by
  simp [decodeUtf8, encodeUtf8, decTLV_tlv]

/-! ### Claim theorems on the Metadata header -/

/-- C1: for every Metadata value (any version triple, any timestamp, any
originator and URI byte strings including empty ones), encoding and then
decoding the produced bytes yields the original value field for field, with
any trailing bytes left over untouched. -/
theorem metadata_encode_decode_roundtrip (m : Metadata) (rest : List Nat) :
    Metadata.decode (Metadata.encode m ++ rest) = some (m, rest) := by
  simp [Metadata.decode, Metadata.encode, List.append_assoc,
    semver_decode_encode, epoch_decode_encode, decodeUtf8_encodeUtf8]

/-- C2: whenever the decoded header's major version exceeds the major version
the reader supports, reading the header yields VersionIncompatible rather than
the Metadata value. -/
theorem version_gate (supported : Nat) (buf : List Nat) (m : Metadata) (rest : List Nat)
    (hdec : Metadata.decode buf = some (m, rest))
    (hmaj : supported < m.anise_version.major) :
    readHeader supported buf = .error .VersionIncompatible := by
  simp [readHeader, hdec, hmaj]

/-- A header stamped with version 2.0.0, read by a reader supporting major 1. -/
def futureHeader : List Nat := Metadata.encode ⟨⟨2, 0, 0⟩, ⟨0⟩, [], []⟩

/-- Witness for C2: the 2.0.0 header decodes, its major exceeds 1, and the
reader rejects it with VersionIncompatible. -/
theorem version_gate_witness :
    Metadata.decode futureHeader = some (⟨⟨2, 0, 0⟩, ⟨0⟩, [], []⟩, []) ∧
    readHeader 1 futureHeader = .error .VersionIncompatible :=
  ⟨by decide,
    version_gate 1 futureHeader ⟨⟨2, 0, 0⟩, ⟨0⟩, [], []⟩ [] (by decide) (by decide)⟩

/-- A Metadata whose two string fields differ: originator "a", empty URI. -/
def orderExample : Metadata := ⟨⟨0, 0, 1⟩, ⟨0⟩, [97], []⟩

/-- The four fields of `orderExample`'s encoding with the two string fields
exchanged: order version, timestamp, URI, originator. -/
def orderSwappedBuffer : List Nat :=
  Semver.encode ⟨0, 0, 1⟩ ++ Epoch.encode ⟨0⟩ ++ encodeUtf8 [] ++ encodeUtf8 [97]

/-- C3 counterexample: a buffer holding `orderExample`'s four fields in a
different order (the two string fields exchanged) is distinct from the
canonical encoding, yet still decodes into a Metadata value (the one with the
strings swapped) - so "any other order is not decoded" fails. -/
theorem metadata_field_order_counterexample :
    Metadata.encode orderExample =
      Semver.encode ⟨0, 0, 1⟩ ++ Epoch.encode ⟨0⟩ ++ encodeUtf8 [97] ++ encodeUtf8 [] ∧
    orderSwappedBuffer ≠ Metadata.encode orderExample ∧
    Metadata.decode orderSwappedBuffer = some (⟨⟨0, 0, 1⟩, ⟨0⟩, [], [97]⟩, []) := by
  decide

/-- C3 amended: encoding emits exactly four tag+length+value fields in the
fixed order version, timestamp, originator, URI; decoding consumes the fields
strictly in that order and fails on a wrong tag at each of the four
positions - but the two string fields carry the same tag, so a buffer with
just those two fields exchanged still decodes, into the Metadata with the
strings swapped. -/
theorem metadata_field_order (m : Metadata) (v : Semver) (e : Epoch)
    (s : List Nat) (t : Nat) (p rest : List Nat) :
    (Metadata.encode m =
      tlv SEMVER_TAG [m.anise_version.major, m.anise_version.minor, m.anise_version.patch] ++
        tlv EPOCH_TAG (toBase256 m.creation_date.nanos) ++
        tlv UTF8_TAG m.originator ++ tlv UTF8_TAG m.metadata_uri) ∧
    (t = SEMVER_TAG ∨ Metadata.decode (tlv t p ++ rest) = none) ∧
    (t = EPOCH_TAG ∨
      Metadata.decode (Semver.encode v ++ (tlv t p ++ rest)) = none) ∧
    (t = UTF8_TAG ∨
      Metadata.decode (Semver.encode v ++ (Epoch.encode e ++ (tlv t p ++ rest))) = none) ∧
    (t = UTF8_TAG ∨
      Metadata.decode
        (Semver.encode v ++ (Epoch.encode e ++ (encodeUtf8 s ++ (tlv t p ++ rest)))) = none) ∧
    (Metadata.decode (Semver.encode m.anise_version ++ (Epoch.encode m.creation_date ++
        (encodeUtf8 m.metadata_uri ++ (encodeUtf8 m.originator ++ rest)))) =
      some (⟨m.anise_version, m.creation_date, m.metadata_uri, m.originator⟩, rest)) := by
  refine ⟨rfl, ?_, ?_, ?_, ?_, ?_⟩
  · by_cases h : t = SEMVER_TAG
    · exact Or.inl h
    · exact Or.inr (by simp [Metadata.decode, Semver.decode, decTLV_wrong_tag _ _ h])
  · by_cases h : t = EPOCH_TAG
    · exact Or.inl h
    · exact Or.inr (by
        simp [Metadata.decode, semver_decode_encode, Epoch.decode, decTLV_wrong_tag _ _ h])
  · by_cases h : t = UTF8_TAG
    · exact Or.inl h
    · exact Or.inr (by
        simp [Metadata.decode, semver_decode_encode, epoch_decode_encode, decodeUtf8,
          decTLV_wrong_tag _ _ h])
  · by_cases h : t = UTF8_TAG
    · exact Or.inl h
    · exact Or.inr (by
        simp [Metadata.decode, semver_decode_encode, epoch_decode_encode, decodeUtf8,
          encodeUtf8, List.append_assoc, decTLV_tlv, decTLV_wrong_tag _ _ h])
  · simp [Metadata.decode, semver_decode_encode, epoch_decode_encode, decodeUtf8_encodeUtf8]

/-- C4: the human-readable rendering prints the fixed placeholder "(not set)"
on the originator line exactly when the originator is empty and the originator
verbatim otherwise, likewise for the URI line; the placeholder is a fixed
nonempty string, never a blank value. -/
theorem metadata_display_sentinel (m : Metadata) :
    m.displayLines[1]? =
      some (strBytes "Originator: " ++
        (if m.originator = [] then strBytes "(not set)" else m.originator)) ∧
    m.displayLines[3]? =
      some (strBytes "Metadata URI: " ++
        (if m.metadata_uri = [] then strBytes "(not set)" else m.metadata_uri)) ∧
    strBytes "(not set)" = [40, 110, 111, 116, 32, 115, 101, 116, 41] :=
  ⟨rfl, rfl, by decide⟩

/-- C10: default construction stamps the library version constant and the
injected current time, and sets both strings to the empty "unset" sentinel;
only the creation date depends on the clock. -/
theorem metadata_default_fields (now : Epoch) :
    (Metadata.default now).anise_version = ANISE_VERSION ∧
    (Metadata.default now).creation_date = now ∧
    (Metadata.default now).originator = [] ∧
    (Metadata.default now).metadata_uri = [] :=
  ⟨rfl, rfl, rfl, rfl⟩

/-! ### Claim theorems on the frame hierarchy and Context resolution -/

/-- C5: every narrower-capability accessor of a GeodeticFrame delegates
verbatim to the embedded value - identity hashes and gravitational parameter
to the celestial frame, radius and flattening to the shape, and the rotation
rate to the frame's own field. -/
theorem geodetic_frame_delegation (g : GeodeticFrame) :
    g.ephemeris_hash = g.celestial_frame.ephemeris_hash ∧
    g.orientation_hash = g.celestial_frame.orientation_hash ∧
    g.mu_km3_s2 = g.celestial_frame.mu_km3_s2 ∧
    g.mean_equatorial_radius_km = g.shape.mean_equatorial_radius_km ∧
    g.flattening = g.shape.flattening ∧
    g.angular_velocity_deg_s = g.angular_velocity_deg :=
  ⟨rfl, rfl, rfl, rfl, rfl, rfl⟩

/-- C6: the lossy GeodeticFrame-to-Frame conversion is total and pure and
returns exactly the embedded bare identity, so both identity hashes are
preserved unchanged while the physical data is discarded. -/
theorem geodetic_into_frame_lossy (g : GeodeticFrame) :
    g.into_frame = g.celestial_frame.frame ∧
    g.into_frame.ephemeris_hash = g.ephemeris_hash ∧
    g.into_frame.orientation_hash = g.orientation_hash :=
  ⟨rfl, rfl, rfl⟩

/-- C7: the two-argument resolution returns exactly the same result as the
three-argument form called with the constants name equal to the ephemeris
name, for every context and every pair of names. -/
theorem geodetic_frame_two_arg_equiv (ctx : Context)
    (ephemeris_name orientation_name : String) :
    ctx.geodetic_frame ephemeris_name orientation_name =
      ctx.geodetic_frame_from ephemeris_name orientation_name ephemeris_name :=
  rfl

/-- C8: the three-argument resolution fails with NotFound naming the missing
constants name exactly when no record matches it, and with
ParameterNotSpecified naming the constants name and the missing "shape"
sub-field exactly when a record is found whose shape is absent. -/
theorem geodetic_frame_from_error_conditions (ctx : Context) (e o c : String) :
    (ctx.geodetic_frame_from e o c = .error (.NotFound c) ↔
      ctx.planetary_constants_from_name c = none) ∧
    (ctx.geodetic_frame_from e o c = .error (.ParameterNotSpecified c "shape") ↔
      ∃ pc, ctx.planetary_constants_from_name c = some pc ∧ pc.shape = none) := by
  cases h : ctx.planetary_constants_from_name c with
  | none => simp [Context.geodetic_frame_from, h]
  | some pc =>
    cases hs : pc.shape with
    | none => simp [Context.geodetic_frame_from, h, hs]
    | some sh => simp [Context.geodetic_frame_from, h, hs]

/-- C9: both resolution operations are total on their inputs and report
failure only as a typed result - every call returns either a frame value or
one of the typed errors, never anything else. -/
theorem resolution_returns_typed_result (ctx : Context) (e o c : String) :
    ((∃ g, ctx.geodetic_frame_from e o c = .ok g) ∨
      ctx.geodetic_frame_from e o c = .error (.NotFound c) ∨
      ctx.geodetic_frame_from e o c = .error (.ParameterNotSpecified c "shape")) ∧
    ((∃ g, ctx.geodetic_frame e o = .ok g) ∨
      ctx.geodetic_frame e o = .error (.NotFound e) ∨
      ctx.geodetic_frame e o = .error (.ParameterNotSpecified e "shape")) := by
  constructor
  · cases h : ctx.planetary_constants_from_name c with
    | none => simp [Context.geodetic_frame_from, h]
    | some pc =>
      cases hs : pc.shape with
      | none => simp [Context.geodetic_frame_from, h, hs]
      | some sh => simp [Context.geodetic_frame_from, h, hs]
  · cases h : ctx.planetary_constants_from_name e with
    | none => simp [Context.geodetic_frame, Context.geodetic_frame_from, h]
    | some pc =>
      cases hs : pc.shape with
      | none => simp [Context.geodetic_frame, Context.geodetic_frame_from, h, hs]
      | some sh => simp [Context.geodetic_frame, Context.geodetic_frame_from, h, hs]

end Anise
